import Mathlib

set_option maxRecDepth 4000

/-!
Shallow embedding of `src/main.py` (a WeChat daily-notification script):
calendar arithmetic (`DateCalculator`), date-string parsing (`parse_date`),
weather lookup with retry and per-run cache (`WeatherAPI`), access-token
caching (`WeChatService.get_access_token`), template-message sending
(`send_template_message`), message composition
(`MessageGenerator.generate_message_data`) and concurrent dispatch
(`MessageGenerator.send_messages`).

Python exceptions are modelled with `Except PyErr`; network traffic is
modelled by oracles giving each HTTP attempt's outcome; `random` colors are
modelled by an ambient stream `colors : Nat -> String` giving the result of
the i-th call of `DateCalculator.get_color`; the opaque lunar-calendar
conversion `ZhDate(...).to_datetime().date()` is a parameter `zh`.
-/

namespace Vx

/-- Python exception values that the modelled code can raise.  Only the
constructor and, for `ValueError`, the message are tracked. -/
inductive PyErr : Type where
  | valueError (msg : String)
  | keyError (key : String)
  | indexError
  | requestException (msg : String)
deriving DecidableEq, Repr

/-- Equality of modelled Python outcomes is decidable. -/
instance {ε α : Type} [DecidableEq ε] [DecidableEq α] :
    DecidableEq (Except ε α) := fun x y =>
  match x, y with
  | .ok a, .ok b =>
    if h : a = b then .isTrue (congrArg Except.ok h)
    else .isFalse (fun c => h (Except.ok.inj c))
  | .error a, .error b =>
    if h : a = b then .isTrue (congrArg Except.error h)
    else .isFalse (fun c => h (Except.error.inj c))
  | .ok _, .error _ => .isFalse Except.noConfusion
  | .error _, .ok _ => .isFalse Except.noConfusion

/-! ## Calendar model (proleptic Gregorian, as in Python `datetime.date`) -/

/-- Gregorian leap-year rule, as used by `datetime.date`. -/
def isLeap (y : Nat) : Bool :=
  y % 4 == 0 && (y % 100 != 0 || y % 400 == 0)

/-- Length of month `m` (1-12) in a year with leap flag `leap`. -/
def daysInMonth (leap : Bool) (m : Nat) : Nat :=
  match m with
  | 1 => 31 | 2 => if leap then 29 else 28 | 3 => 31 | 4 => 30
  | 5 => 31 | 6 => 30 | 7 => 31 | 8 => 31
  | 9 => 30 | 10 => 31 | 11 => 30 | 12 => 31
  | _ => 0

/-- Days in year `y` strictly before month `m`. -/
def daysBeforeMonth (leap : Bool) (m : Nat) : Nat :=
  (List.range (m - 1)).foldl (fun acc i => acc + daysInMonth leap (i + 1)) 0

/-- A calendar date, mirroring Python `datetime.date` (components only;
validity is checked where Python checks it). -/
structure Date where
  year : Nat
  month : Nat
  day : Nat
deriving DecidableEq, Repr

/-- Whether the components form a real `datetime.date`
(Python raises `ValueError` otherwise; `MINYEAR = 1`, `MAXYEAR = 9999`). -/
def dateValid (y m d : Nat) : Bool :=
  1 ≤ y && y ≤ 9999 && 1 ≤ m && m ≤ 12 && 1 ≤ d && d ≤ daysInMonth (isLeap y) m

/-- Python `date.toordinal()`: day number with 0001-01-01 as day 1. -/
def Date.toOrdinal (d : Date) : Nat :=
  365 * (d.year - 1) + (d.year - 1) / 4 - (d.year - 1) / 100 + (d.year - 1) / 400
    + daysBeforeMonth (isLeap d.year) d.month + d.day

/-- Python `date` comparison: lexicographic on (year, month, day). -/
def dateLt (a b : Date) : Bool :=
  a.year < b.year ||
    (a.year == b.year && (a.month < b.month ||
      (a.month == b.month && a.day < b.day)))

/-- `DateCalculator.calculate_days`: `(end_date - start_date).days`. -/
def calculate_days (start_date end_date : Date) : Int :=
  (end_date.toOrdinal : Int) - (start_date.toOrdinal : Int)

/-- Zero-padding to two digits, as in ISO date formatting. -/
def pad2 (n : Nat) : String :=
  if n < 10 then "0" ++ toString n else toString n

/-- Zero-padding of the year to four digits. -/
def pad4 (n : Nat) : String :=
  if n < 10 then "000" ++ toString n
  else if n < 100 then "00" ++ toString n
  else if n < 1000 then "0" ++ toString n
  else toString n

/-- Python `str(date)`: ISO `YYYY-MM-DD`. -/
def dateISO (d : Date) : String :=
  pad4 d.year ++ "-" ++ pad2 d.month ++ "-" ++ pad2 d.day

/-- The `week_list` table from `generate_message_data` (index 0 holds the
Sunday name although Python `weekday()` returns 0 for Monday). -/
def weekList : List String :=
  ["星期日", "星期一", "星期二", "星期三", "星期四", "星期五", "星期六"]

/-- Python `date.weekday()`: 0 = Monday.  Ordinal 1 (0001-01-01) is a
Monday, so `weekday = (toordinal + 6) % 7`. -/
def Date.weekday (d : Date) : Nat :=
  (d.toOrdinal + 6) % 7

/-- The `value` of the `date` entry: `f"{today} {week_list[today.weekday()]}"`. -/
def dateValue (today : Date) : String :=
  dateISO today ++ " " ++ weekList.getD today.weekday ""

/-! ## `DateCalculator.parse_date` -/

/-- ASCII decimal digit test. -/
def isDigitChar (c : Char) : Bool :=
  48 ≤ c.toNat && c.toNat ≤ 57

/-- Numeric value of a digit string (callers check `isDigitChar` first). -/
def natOfDigits (l : List Char) : Nat :=
  l.foldl (fun acc c => acc * 10 + (c.toNat - 48)) 0

/-- Python `str.split('-')` on a character list (keeps empty groups, as
Python does for an explicit separator). -/
def splitOnDash : List Char → List (List Char)
  | [] => [[]]
  | c :: rest =>
    let r := splitOnDash rest
    if c = '-' then [] :: r
    else
      match r with
      | g :: gs => (c :: g) :: gs
      | [] => [[c]]

/-- A component accepted by `strptime`'s `%m` directive: one or two digits
with value 1-12. -/
def monthField (l : List Char) : Bool :=
  (l.length == 1 || l.length == 2) && l.all isDigitChar &&
    1 ≤ natOfDigits l && natOfDigits l ≤ 12

/-- A component accepted by `strptime`'s `%d` directive: one or two digits
with value 1-31. -/
def dayField (l : List Char) : Bool :=
  (l.length == 1 || l.length == 2) && l.all isDigitChar &&
    1 ≤ natOfDigits l && natOfDigits l ≤ 31

/-- A component accepted by `strptime`'s `%Y` directive: exactly four
digits. -/
def yearField (l : List Char) : Bool :=
  l.length == 4 && l.all isDigitChar

/-- The solar branch of `parse_date`:
`datetime.strptime(date_str, "%Y-%m-%d").date()`.  `strptime` matches the
three fields against `%Y`/`%m`/`%d` and the `datetime` constructor then
validates the day against the month; any failure is a `ValueError`. -/
def parse_solar (l : List Char) : Except PyErr Date :=
  match splitOnDash l with
  | [ys, ms, ds] =>
    if yearField ys && monthField ms && dayField ds then
      let y := natOfDigits ys
      let m := natOfDigits ms
      let d := natOfDigits ds
      if dateValid y m d then .ok ⟨y, m, d⟩
      else .error (.valueError "day is out of range for month")
    else .error (.valueError "time data does not match format")
  | _ => .error (.valueError "time data does not match format")

/-- `int(s)` on one split component: digits only in the model. -/
def pyInt (l : List Char) : Except PyErr Nat :=
  if l.length ≥ 1 && l.all isDigitChar then .ok (natOfDigits l)
  else .error (.valueError "invalid literal for int")

/-- `DateCalculator.parse_date`.  A leading `'r'` marks a lunar date:
the remainder is split on `-`, its first three parts go through `int` and
then through the opaque conversion
`ZhDate(y, m, d).to_datetime().date()`, modelled by the parameter `zh`
(missing parts raise `IndexError`, as Python list indexing does).
Otherwise the string is parsed as a strict solar `YYYY-MM-DD`. -/
def parse_date (zh : Nat → Nat → Nat → Except PyErr Date) (s : String) :
    Except PyErr Date :=
  match s.data with
  | 'r' :: rest =>
    match splitOnDash rest with
    | p0 :: p1 :: p2 :: _ =>
      match pyInt p0, pyInt p1, pyInt p2 with
      | .ok y, .ok m, .ok d => zh y m d
      | .error e, _, _ => .error e
      | _, .error e, _ => .error e
      | _, _, .error e => .error e
    | _ => .error .indexError
  | l => parse_solar l

/-! ## `WeatherAPI` -/

/-- One location object from the geocoding response's `location` list
(only the consumed `id` field is modelled). -/
structure LocationObj where
  id : String
deriving DecidableEq, Repr

/-- The geocoding response body.  `code` is `none` when the JSON object
has no `code` key (Python then raises `KeyError`). -/
structure GeoResp where
  code : Option String
  location : List LocationObj
deriving DecidableEq, Repr

/-- The `now` object of the weather response. -/
structure NowObj where
  text : String
  temp : String
  windDir : String
deriving DecidableEq, Repr

/-- The current-weather response body. -/
structure WxResp where
  code : Option String
  now : NowObj
deriving DecidableEq, Repr

/-- `WeatherAPI.get_with_retry`, parametrised by an oracle giving each
HTTP attempt's outcome (`none` = the `get`/`.json()` raised).  Runs
attempts `start, start+1, ...` while budget remains; returns the first
successful attempt's parsed body, or `None` when the budget is spent. -/
def get_with_retry {α : Type} (oracle : Nat → Option α) :
    Nat → Nat → Option α
  | _, 0 => none
  | start, b + 1 =>
    match oracle start with
    | some j => some j
    | none => get_with_retry oracle (start + 1) b

/-- Number of HTTP attempts `get_with_retry` performs. -/
def retryAttempts {α : Type} (oracle : Nat → Option α) :
    Nat → Nat → Nat
  | _, 0 => 0
  | start, b + 1 =>
    match oracle start with
    | some _ => 1
    | none => 1 + retryAttempts oracle (start + 1) b

/-- The network environment of one `WeatherAPI` call: per-attempt outcomes
of the geocoding lookup and, for each location id, of the weather lookup. -/
structure WeatherEnv where
  geoAttempts : Nat → Option GeoResp
  wxAttempts : String → Nat → Option WxResp

/-- A cached weather triple `(text, temp-with-°C, windDir)`. -/
def Snapshot : Type := String × String × String
deriving instance DecidableEq, Repr for Snapshot

/-- The per-run cache `self.cache`, a dict keyed by region. -/
def Cache : Type := List (String × Snapshot)
deriving instance DecidableEq, Repr for Cache

/-- `WeatherAPI.get_weather`.  Returns the Python outcome (result plus
updated cache, or the raised exception) paired with the number of
network lookups issued, a lookup being one `get_with_retry` call
(0 on a cache hit, 1 when only geocoding ran, 2 when both ran). -/
def get_weather (env : WeatherEnv) (cache : Cache) (region : String) :
    Except PyErr (Snapshot × Cache) × Nat :=
  match cache.lookup region with
  | some snap => (.ok (snap, cache), 0)
  | none =>
    match get_with_retry env.geoAttempts 0 3 with
    | none => (.error (.valueError "地区查询失败"), 1)
    | some location_data =>
      match location_data.code with
      | none => (.error (.keyError "code"), 1)
      | some c =>
        if c ≠ "200" then (.error (.valueError "地区查询失败"), 1)
        else
          match location_data.location with
          | [] => (.error .indexError, 1)
          | loc :: _ =>
            match get_with_retry (env.wxAttempts loc.id) 0 3 with
            | none => (.error (.valueError "天气查询失败"), 2)
            | some weather_data =>
              match weather_data.code with
              | none => (.error (.keyError "code"), 2)
              | some c2 =>
                if c2 ≠ "200" then (.error (.valueError "天气查询失败"), 2)
                else
                  let result : Snapshot :=
                    (weather_data.now.text, weather_data.now.temp ++ "°C",
                      weather_data.now.windDir)
                  (.ok (result, (region, result) :: cache), 2)

/-! ## `WeChatService` -/

/-- The mutable token cache of `WeChatService`: `self.access_token`
(initially `None`) and `self.token_expire` (initially `0`; timestamps are
modelled as integers). -/
structure WeChatState where
  access_token : Option String
  token_expire : Int
deriving DecidableEq, Repr

/-- The provider's token-endpoint response: the `access_token` field
(`none` when the key is missing) and `expires_in`. -/
structure TokenResponse where
  access_token : Option String
  expires_in : Int
deriving DecidableEq, Repr

/-- `WeChatService.get_access_token`, with the current time `now` and the
token-endpoint response `resp` passed explicitly.  Returns the Python
outcome (returned token plus updated state, or the raised `ValueError`)
paired with the number of network calls made (0 or 1).  On the cached
path Python returns `self.access_token` unchanged. -/
def get_access_token (st : WeChatState) (now : Int) (resp : TokenResponse) :
    Except PyErr (Option String × WeChatState) × Nat :=
  if now < st.token_expire then (.ok (st.access_token, st), 0)
  else
    match resp.access_token with
    | none => (.error (.valueError "微信API认证失败"), 1)
    | some t =>
      (.ok (some t, ⟨some t, now + resp.expires_in - 300⟩), 1)

/-- The provider's send-endpoint response: `errcode` is
`result.get('errcode')`, i.e. `none` when the key is missing. -/
structure SendResp where
  errcode : Option Int
deriving DecidableEq, Repr

/-- The outcome of one recipient's send attempt as seen inside the worker:
either the provider's JSON response, or an exception raised on the way
(token fetch, `post`, or `.json()` decode). -/
inductive SendOutcome : Type where
  | resp (r : SendResp)
  | raise (e : PyErr)
deriving DecidableEq, Repr

/-- `WeChatService.send_template_message` given the attempt's outcome:
re-raises a transport/auth exception; otherwise returns
`result.get('errcode') == 0`. -/
def send_template_message (o : SendOutcome) : Except PyErr Bool :=
  match o with
  | .raise e => .error e
  | .resp r => if r.errcode != some 0 then .ok false else .ok true

/-! ## `MessageGenerator.generate_message_data` -/

/-- One value of the message-data dict: `{"value": ..., "color": ...}`. -/
structure Entry where
  value : String
  color : String
deriving DecidableEq, Repr

/-- One configured anniversary or birthday item: `{name, date}`. -/
structure NamedDate where
  name : String
  date : String
deriving DecidableEq, Repr

/-- The five fixed entries of `base_data`, consuming colors 0-4 of the
ambient color stream. -/
def base_data (colors : Nat → String) (today : Date) (region : String)
    (weather temp wind_dir : String) : List (String × Entry) :=
  [("date", ⟨dateValue today, colors 0⟩),
   ("region", ⟨region, colors 1⟩),
   ("weather", ⟨weather, colors 2⟩),
   ("temp", ⟨temp, colors 3⟩),
   ("wind_dir", ⟨wind_dir, colors 4⟩)]

/-- The anniversary loop: entry `idx` gets key `anniversary_{idx}`, value
`f"{name}已经 {days} 天"` and the color at stream position `off + idx`.
A `parse_date` exception propagates out of the loop. -/
def annLoop (zh : Nat → Nat → Nat → Except PyErr Date)
    (colors : Nat → String) (today : Date) (off : Nat) :
    Nat → List NamedDate → Except PyErr (List (String × Entry))
  | _, [] => .ok []
  | idx, ann :: rest =>
    match parse_date zh ann.date with
    | .error e => .error e
    | .ok start_date =>
      let days := calculate_days start_date today
      match annLoop zh colors today off (idx + 1) rest with
      | .error e => .error e
      | .ok tail =>
        .ok (("anniversary_" ++ toString idx,
              ⟨ann.name ++ "已经 " ++ toString days ++ " 天",
               colors (off + idx)⟩) :: tail)

/-- `birth_date.replace(year=y)`: Python re-validates the components and
raises `ValueError` for an impossible date (e.g. Feb 29 in a common
year). -/
def replace_year (d : Date) (y : Nat) : Except PyErr Date :=
  if dateValid y d.month d.day then .ok ⟨y, d.month, d.day⟩
  else .error (.valueError "day is out of range for month")

/-- The next-birthday computation of the birthday loop:
`next_birthday = birth_date.replace(year=today.year)` and, when that date
precedes `today`, `next_birthday.replace(year=today.year + 1)`. -/
def next_birthday (birth today : Date) : Except PyErr Date :=
  match replace_year birth today.year with
  | .error e => .error e
  | .ok nb =>
    if dateLt nb today then replace_year birth (today.year + 1)
    else .ok nb

/-- The birthday loop: entry `idx` gets key `birthday_{idx}`, value
`f"{name}生日{status}"` with `status = "今天生日！"` when the day count is
zero and `f"还有{days}天"` otherwise, and the color at stream position
`off + idx`.  Exceptions propagate out of the loop. -/
def bdLoop (zh : Nat → Nat → Nat → Except PyErr Date)
    (colors : Nat → String) (today : Date) (off : Nat) :
    Nat → List NamedDate → Except PyErr (List (String × Entry))
  | _, [] => .ok []
  | idx, bd :: rest =>
    match parse_date zh bd.date with
    | .error e => .error e
    | .ok birth_date =>
      match next_birthday birth_date today with
      | .error e => .error e
      | .ok nb =>
        let days := calculate_days today nb
        let status :=
          if days == 0 then "今天生日！" else "还有" ++ toString days ++ "天"
        match bdLoop zh colors today off (idx + 1) rest with
        | .error e => .error e
        | .ok tail =>
          .ok (("birthday_" ++ toString idx,
                ⟨bd.name ++ "生日" ++ status, colors (off + idx)⟩) :: tail)

/-- `MessageGenerator.generate_message_data`, with the outcome of
`self.weather_api.get_weather(region)` passed as `weatherResult`.
The `try/except` converts any weather exception into the `"未知"`
placeholders; the three dicts are merged with `{**base, **ann, **bd}`
(keys are disjoint by construction, so concatenation models the merge). -/
def generate_message_data (zh : Nat → Nat → Nat → Except PyErr Date)
    (colors : Nat → String) (today : Date) (region : String)
    (weatherResult : Except PyErr Snapshot)
    (anniversaries birthdays : List NamedDate) :
    Except PyErr (List (String × Entry)) :=
  let wtd :=
    match weatherResult with
    | .ok r => r
    | .error _ => ("未知", "未知", "未知")
  match annLoop zh colors today 5 0 anniversaries with
  | .error e => .error e
  | .ok anniversary_data =>
    match bdLoop zh colors today (5 + anniversaries.length) 0 birthdays with
    | .error e => .error e
    | .ok birthday_data =>
      .ok (base_data colors today region wtd.1 wtd.2.1 wtd.2.2
            ++ anniversary_data ++ birthday_data)

/-! ## `MessageGenerator.send_messages` -/

/-- The futures submitted by `send_messages`: one
`send_template_message` call per configured user, in list order, with
`outcome` giving what each user's attempt runs into. -/
def sendAttempts (users : List String) (outcome : String → SendOutcome) :
    List (Except PyErr Bool) :=
  users.map fun u => send_template_message (outcome u)

/-- `[f.result() for f in futures]`: collect results in submission order;
the first future whose worker raised re-raises and aborts the
comprehension. -/
def collectResults : List (Except PyErr Bool) → Except PyErr (List Bool)
  | [] => .ok []
  | .error e :: _ => .error e
  | .ok b :: rest =>
    match collectResults rest with
    | .error e => .error e
    | .ok tail => .ok (b :: tail)

/-- `MessageGenerator.send_messages` after composition: submits one send
per user and reports `(sum(results), len(results) - sum(results))`, i.e.
`(sent, failed)`; an exception raised by any worker propagates out of the
result collection instead. -/
def send_messages (users : List String) (outcome : String → SendOutcome) :
    Except PyErr (Nat × Nat) :=
  match collectResults (sendAttempts users outcome) with
  | .error e => .error e
  | .ok results => .ok (results.count true, results.length - results.count true)

/-! ## Interleaving model of concurrent `get_access_token` calls

`send_messages` runs up to five workers; each calls `get_access_token`
with no lock.  Under the GIL the expiry check (line 109) is atomic, the
network fetch releases the GIL, and the two cache writes (lines 119-120)
happen token-first, so no reader can observe a fresh expiry with a stale
token; one worker is therefore modelled as three atomic actions:
check, fetch, write-both-fields.  The modelled provider response is a
successful one carrying token `t` and `expires_in = e`. -/

/-- Where one worker stands in its `get_access_token` call. -/
inductive WStatus : Type where
  | start
  | fetched
  | done
deriving DecidableEq, Repr

/-- The whole system: the shared `WeChatService` fields, each worker's
position, and how many token fetches have been issued. -/
structure SysState where
  shared : WeChatState
  workers : List WStatus
  fetches : Nat
deriving DecidableEq, Repr

/-- One atomic action of worker `i`: a `start` worker runs the expiry
check (cache hit finishes it; otherwise it issues the fetch); a `fetched`
worker writes the token and the recomputed expiry; a finished or absent
worker does nothing. -/
def stepWorker (now : Int) (t : String) (e : Int) (s : SysState) (i : Nat) :
    SysState :=
  match s.workers[i]? with
  | none => s
  | some .start =>
    if now < s.shared.token_expire then
      { s with workers := s.workers.set i .done }
    else
      { s with workers := s.workers.set i .fetched, fetches := s.fetches + 1 }
  | some .fetched =>
    { s with shared := ⟨some t, now + e - 300⟩,
             workers := s.workers.set i .done }
  | some .done => s

/-- Run a schedule: the listed worker indices act one atomic step at a
time, in order. -/
def runSched (now : Int) (t : String) (e : Int) (s : SysState)
    (sched : List Nat) : SysState :=
  sched.foldl (stepWorker now t e) s

/-- A placeholder lunar conversion for concrete runs; solar date strings
never consult it. -/
def zh0 : Nat → Nat → Nat → Except PyErr Date := fun _ _ _ => .error .indexError

/-- A fixed color stream for concrete runs. -/
def colors0 : Nat → String := fun _ => "#000000"

/-! ## Helper lemmas -/

theorem retryAttempts_le {α : Type} (oracle : Nat → Option α) :
    ∀ n start, retryAttempts oracle start n ≤ n := by
  intro n
  induction n with
  | zero => intro start; simp [retryAttempts]
  | succ m ih =>
    intro start
    cases h : oracle start with
    | some j => simp [retryAttempts, h]
    | none =>
      have := ih (start + 1)
      simp [retryAttempts, h]
      omega

theorem get_with_retry_all_fail {α : Type} (oracle : Nat → Option α) :
    ∀ n start, (∀ i, i < n → oracle (start + i) = none) →
      get_with_retry oracle start n = none := by
  intro n
  induction n with
  | zero => intro start _; rfl
  | succ m ih =>
    intro start h
    have h0 : oracle start = none := by simpa using h 0 (Nat.succ_pos m)
    have hrec := ih (start + 1) (fun i hi => by
      have := h (i + 1) (Nat.succ_lt_succ hi)
      rw [show start + 1 + i = start + (i + 1) from by omega]
      exact this)
    simp [get_with_retry, h0, hrec]

theorem get_with_retry_first_success {α : Type} (oracle : Nat → Option α) :
    ∀ n start i v, i < n → (∀ j, j < i → oracle (start + j) = none) →
      oracle (start + i) = some v →
      get_with_retry oracle start n = some v := by
  intro n
  induction n with
  | zero => intro start i v hi _ _; exact absurd hi (Nat.not_lt_zero i)
  | succ m ih =>
    intro start i v hi hnone hv
    cases i with
    | zero =>
      have h0 : oracle start = some v := by simpa using hv
      simp [get_with_retry, h0]
    | succ k =>
      have h0 : oracle start = none := by simpa using hnone 0 (Nat.succ_pos k)
      have hrec := ih (start + 1) k v (by omega)
        (fun j hj => by
          rw [show start + 1 + j = start + (j + 1) from by omega]
          exact hnone (j + 1) (Nat.succ_lt_succ hj))
        (by rw [show start + 1 + k = start + (k + 1) from by omega]; exact hv)
      simp [get_with_retry, h0, hrec]

/-! ## Claim theorems -/

/-- C6: for every URL (modelled by its per-attempt outcome oracle) and
retry budget `n`, `get_with_retry` performs at most `n` HTTP attempts,
returns the parsed JSON of the first successful attempt, and when all `n`
attempts fail it returns `None` (it is a total function into `Option`, so
no exception escapes). -/
theorem c6_get_with_retry {α : Type} (oracle : Nat → Option α) (n : Nat) :
    retryAttempts oracle 0 n ≤ n ∧
    (∀ i v, i < n → (∀ j, j < i → oracle j = none) → oracle i = some v →
      get_with_retry oracle 0 n = some v) ∧
    ((∀ i, i < n → oracle i = none) → get_with_retry oracle 0 n = none) := by
  refine ⟨retryAttempts_le oracle n 0, ?_, ?_⟩
  · intro i v hi hnone hv
    exact get_with_retry_first_success oracle n 0 i v hi
      (fun j hj => by simpa using hnone j hj) (by simpa using hv)
  · intro h
    exact get_with_retry_all_fail oracle n 0 (fun i hi => by simpa using h i hi)

/-- C6 witness: with a budget of 3 and an oracle that fails on attempt 0
and succeeds on attempt 1 with value 42, the call returns 42 within the
attempt bound. -/
theorem c6_witness :
    retryAttempts (fun i => if i = 1 then some 42 else none) 0 3 ≤ 3 ∧
    get_with_retry (fun i => if i = 1 then some (42 : Nat) else none) 0 3
      = some 42 := by
  refine ⟨(c6_get_with_retry (fun i => if i = 1 then some 42 else none) 3).1, ?_⟩
  exact (c6_get_with_retry (fun i => if i = 1 then some 42 else none) 3).2.1 1 42
    (by omega)
    (fun j hj => by
      have : j = 0 := by omega
      subst this
      rfl)
    (by rfl)

/-- C5: `get_access_token` makes zero network calls exactly when the
current time is strictly before the stored expiry (and then returns the
cached token with unchanged state), and after every refresh that returns
successfully the stored expiry equals `now + expires_in - 300`. -/
theorem c5_token_cache (st : WeChatState) (now : Int) (resp : TokenResponse) :
    ((get_access_token st now resp).2 = 0 ↔ now < st.token_expire) ∧
    (now < st.token_expire →
      (get_access_token st now resp).1 = .ok (st.access_token, st)) ∧
    (∀ r st', ¬ now < st.token_expire →
      (get_access_token st now resp).1 = .ok (r, st') →
      st'.token_expire = now + resp.expires_in - 300) := by
  by_cases h : now < st.token_expire
  · refine ⟨by simp [get_access_token, h], fun _ => by simp [get_access_token, h],
      fun r st' hn _ => absurd h hn⟩
  · refine ⟨?_, fun hc => absurd hc h, ?_⟩
    · cases hr : resp.access_token <;> simp [get_access_token, h, hr]
    · intro r st' _ hok
      cases hr : resp.access_token with
      | none => simp [get_access_token, h, hr] at hok
      | some t =>
        simp [get_access_token, h, hr] at hok
        rw [← hok.2]

/-- C5 witness: at time 400 a cache expiring at 500 is returned with zero
network calls, and a refresh at time 1000 with `expires_in = 7200` stores
expiry `1000 + 7200 - 300`. -/
theorem c5_witness :
    (get_access_token ⟨some "S", 500⟩ 400 ⟨some "T", 7200⟩).2 = 0 ∧
    (WeChatState.mk (some "T") 7900).token_expire = 1000 + 7200 - 300 := by
  constructor
  · exact (c5_token_cache ⟨some "S", 500⟩ 400 ⟨some "T", 7200⟩).1.2 (by decide)
  · exact (c5_token_cache ⟨none, 0⟩ 1000 ⟨some "T", 7200⟩).2.2
      (some "T") ⟨some "T", 7900⟩ (by decide) (by decide)

/-- C10: `send_template_message` returns `True` only when the response's
`errcode` is exactly the integer 0; in particular a response with no
`errcode` key at all (modelled as `errcode = none`, since
`result.get('errcode')` yields `None`) returns `False`. -/
theorem c10_errcode_gate (r : SendResp) :
    (send_template_message (.resp r) = .ok true ↔ r.errcode = some 0) ∧
    (r.errcode = none → send_template_message (.resp r) = .ok false) := by
  rcases r with ⟨ec⟩
  rcases ec with _ | n
  · simp [send_template_message]
  · by_cases h : n = 0
    · subst h; simp [send_template_message]
    · simp [send_template_message, h]

/-- C10 witness: a response without an `errcode` key counts as a failed
send. -/
theorem c10_witness :
    send_template_message (.resp ⟨none⟩) = .ok false :=
  (c10_errcode_gate ⟨none⟩).2 rfl

/-- C7: the next-occurrence computation replaces the birth date's year
with today's year and, when the result precedes today, advances the year
by one; for birth 1990-03-15 and today 2024-03-15 the remaining-day count
is 0 and the birthday entry carries the "今天生日！" status literal (the
spec's "today is the birthday!"), and for today 2024-03-16 the next
occurrence is 2025-03-15. -/
theorem c7_next_occurrence :
    (∀ birth today nb, replace_year birth today.year = .ok nb →
      next_birthday birth today =
        (if dateLt nb today then replace_year birth (today.year + 1)
         else .ok nb)) ∧
    next_birthday ⟨1990, 3, 15⟩ ⟨2024, 3, 15⟩ = .ok ⟨2024, 3, 15⟩ ∧
    calculate_days ⟨2024, 3, 15⟩ ⟨2024, 3, 15⟩ = 0 ∧
    bdLoop zh0 colors0 ⟨2024, 3, 15⟩ 5 0 [⟨"A", "1990-03-15"⟩]
      = .ok [("birthday_0", ⟨"A生日今天生日！", colors0 5⟩)] ∧
    next_birthday ⟨1990, 3, 15⟩ ⟨2024, 3, 16⟩ = .ok ⟨2025, 3, 15⟩ := by
  refine ⟨?_, by decide, by decide, by decide, by decide⟩
  intro birth today nb h
  unfold next_birthday
  rw [h]

/-- C7 witness: the general next-occurrence clause applied to birth
1990-03-15 and today 2024-03-16, where the year-replaced date 2024-03-15
precedes today. -/
theorem c7_witness :
    next_birthday ⟨1990, 3, 15⟩ ⟨2024, 3, 16⟩ =
      (if dateLt ⟨2024, 3, 15⟩ ⟨2024, 3, 16⟩ then
        replace_year ⟨1990, 3, 15⟩ 2025
       else .ok ⟨2024, 3, 15⟩) :=
  c7_next_occurrence.1 ⟨1990, 3, 15⟩ ⟨2024, 3, 16⟩ ⟨2024, 3, 15⟩ (by decide)

/-- C8: when weather resolution raised, composition is not aborted: it
returns the merged mapping whose five fixed entries `date`, `region`,
`weather`, `temp`, `wind_dir` are present, the last three holding the
`"未知"` placeholder (the spec's literal "unknown").  The hypotheses say
the configured anniversary/birthday entries themselves process cleanly;
a malformed entry is a separate failure mode (claim C2). -/
theorem c8_weather_fallback (zh : Nat → Nat → Nat → Except PyErr Date)
    (colors : Nat → String) (today : Date) (region : String) (e : PyErr)
    (anns bds : List NamedDate) (a b : List (String × Entry))
    (h1 : annLoop zh colors today 5 0 anns = .ok a)
    (h2 : bdLoop zh colors today (5 + anns.length) 0 bds = .ok b) :
    generate_message_data zh colors today region (.error e) anns bds
      = .ok (base_data colors today region "未知" "未知" "未知" ++ a ++ b) ∧
    (∀ m,
      generate_message_data zh colors today region (.error e) anns bds = .ok m →
      m.lookup "date" = some ⟨dateValue today, colors 0⟩ ∧
      m.lookup "region" = some ⟨region, colors 1⟩ ∧
      m.lookup "weather" = some ⟨"未知", colors 2⟩ ∧
      m.lookup "temp" = some ⟨"未知", colors 3⟩ ∧
      m.lookup "wind_dir" = some ⟨"未知", colors 4⟩) := by
  have hg : generate_message_data zh colors today region (.error e) anns bds
      = .ok (base_data colors today region "未知" "未知" "未知" ++ a ++ b) := by
    unfold generate_message_data
    rw [h1, h2]
  refine ⟨hg, ?_⟩
  intro m hm
  rw [hg] at hm
  obtain rfl := Except.ok.inj hm
  exact ⟨rfl, rfl, rfl, rfl, rfl⟩

/-- C8 witness: an empty anniversary/birthday configuration with a failed
weather lookup composes to exactly the five fixed entries with the
placeholders. -/
theorem c8_witness :
    generate_message_data zh0 colors0 ⟨2024, 1, 1⟩ "R"
        (.error (.valueError "地区查询失败")) [] []
      = .ok (base_data colors0 ⟨2024, 1, 1⟩ "R" "未知" "未知" "未知"
              ++ [] ++ []) :=
  (c8_weather_fallback zh0 colors0 ⟨2024, 1, 1⟩ "R" (.valueError "地区查询失败")
    [] [] [] [] (by decide) (by decide)).1

theorem annLoop_ok_parses (zh : Nat → Nat → Nat → Except PyErr Date)
    (colors : Nat → String) (today : Date) (off : Nat) :
    ∀ idx l a, annLoop zh colors today off idx l = .ok a →
      ∀ x ∈ l, ∃ d, parse_date zh x.date = .ok d := by
  intro idx l
  induction l generalizing idx with
  | nil => intro a _ x hx; simp at hx
  | cons hd tl ih =>
    intro a h x hx
    simp only [annLoop] at h
    cases hp : parse_date zh hd.date with
    | error e2 => rw [hp] at h; simp at h
    | ok d =>
      rw [hp] at h
      rcases List.mem_cons.mp hx with rfl | hmem
      · exact ⟨d, hp⟩
      · cases hrec : annLoop zh colors today off (idx + 1) tl with
        | error e2 => rw [hrec] at h; simp at h
        | ok tail => exact ih (idx + 1) tail hrec x hmem

theorem bdLoop_ok_parses (zh : Nat → Nat → Nat → Except PyErr Date)
    (colors : Nat → String) (today : Date) (off : Nat) :
    ∀ idx l a, bdLoop zh colors today off idx l = .ok a →
      ∀ x ∈ l, ∃ d, parse_date zh x.date = .ok d := by
  intro idx l
  induction l generalizing idx with
  | nil => intro a _ x hx; simp at hx
  | cons hd tl ih =>
    intro a h x hx
    cases hp : parse_date zh hd.date with
    | error e2 => simp [bdLoop, hp] at h
    | ok d =>
      simp only [bdLoop, hp] at h
      rcases List.mem_cons.mp hx with rfl | hmem
      · exact ⟨d, hp⟩
      · cases hnb : next_birthday d today with
        | error e2 => rw [hnb] at h; simp at h
        | ok nb =>
          rw [hnb] at h
          cases hrec : bdLoop zh colors today off (idx + 1) tl with
          | error e2 => rw [hrec] at h; simp at h
          | ok tail => exact ih (idx + 1) tail hrec x hmem

/-- C2 (amended): a birthday or anniversary entry whose date string fails
to parse makes `generate_message_data` raise, aborting the whole
composition; no mapping (hence no entry for any other configured item) is
returned. -/
theorem c2_malformed_aborts (zh : Nat → Nat → Nat → Except PyErr Date)
    (colors : Nat → String) (today : Date) (region : String)
    (w : Except PyErr Snapshot) (anns bds : List NamedDate) (x : NamedDate)
    (hmem : x ∈ anns ∨ x ∈ bds)
    (hbad : ∃ pe, parse_date zh x.date = .error pe) :
    ∃ e2, generate_message_data zh colors today region w anns bds
            = .error e2 := by
  obtain ⟨pe, hpe⟩ := hbad
  cases hg : generate_message_data zh colors today region w anns bds with
  | error e2 => exact ⟨e2, rfl⟩
  | ok m =>
    exfalso
    unfold generate_message_data at hg
    cases ha : annLoop zh colors today 5 0 anns with
    | error e2 => rw [ha] at hg; simp at hg
    | ok a =>
      rw [ha] at hg
      cases hb : bdLoop zh colors today (5 + anns.length) 0 bds with
      | error e2 => rw [hb] at hg; simp at hg
      | ok b =>
        rcases hmem with hx | hx
        · obtain ⟨d, hd⟩ := annLoop_ok_parses zh colors today 5 0 anns a ha x hx
          simp [hd] at hpe
        · obtain ⟨d, hd⟩ :=
            bdLoop_ok_parses zh colors today (5 + anns.length) 0 bds b hb x hx
          simp [hd] at hpe

/-- C2 counterexample: with two configured birthdays where the second has
the malformed date "2024-13-40", composition raises a `ValueError` and
returns no mapping at all — the entry for the well-formed first birthday
is not produced, contrary to the claim. -/
theorem c2_counterexample :
    generate_message_data zh0 colors0 ⟨2024, 1, 1⟩ "R"
        (.ok ("晴", "3°C", "北风")) []
        [⟨"A", "1990-03-15"⟩, ⟨"B", "2024-13-40"⟩]
      = .error (.valueError "time data does not match format") := by decide

/-- C2 witness: the amended claim applied to the same configuration. -/
theorem c2_witness :
    ∃ e2, generate_message_data zh0 colors0 ⟨2024, 1, 1⟩ "R"
        (.ok ("晴", "3°C", "北风")) []
        [⟨"A", "1990-03-15"⟩, ⟨"B", "2024-13-40"⟩]
      = .error e2 :=
  c2_malformed_aborts zh0 colors0 ⟨2024, 1, 1⟩ "R" (.ok ("晴", "3°C", "北风"))
    [] [⟨"A", "1990-03-15"⟩, ⟨"B", "2024-13-40"⟩] ⟨"B", "2024-13-40"⟩
    (Or.inr (by decide))
    ⟨.valueError "time data does not match format", by decide⟩

/-- The boolean a worker's send evaluates to when it does not raise:
`True` on `errcode == 0`, `False` otherwise. -/
def sendBool (o : SendOutcome) : Bool :=
  match send_template_message o with
  | .ok b => b
  | .error _ => false

theorem send_template_message_resp (r : SendResp) :
    send_template_message (.resp r) = .ok (sendBool (.resp r)) := by
  unfold sendBool send_template_message
  by_cases h : r.errcode = some 0 <;> simp [h]

theorem collect_no_raise (outcome : String → SendOutcome) :
    ∀ users : List String, (∀ u ∈ users, ∀ e, outcome u ≠ .raise e) →
      collectResults (sendAttempts users outcome)
        = .ok (users.map fun u => sendBool (outcome u)) := by
  intro users
  induction users with
  | nil => intro _; rfl
  | cons u tl ih =>
    intro h
    cases ho : outcome u with
    | raise e => exact absurd ho (h u (List.mem_cons_self u tl) e)
    | resp r =>
      have htl := ih (fun v hv e => h v (List.mem_cons_of_mem u hv) e)
      simp only [sendAttempts] at htl
      simp [sendAttempts, collectResults, send_template_message_resp, ho, htl]

theorem collectResults_ok_elem :
    ∀ l bs, collectResults l = .ok bs →
      ∀ x ∈ l, ∃ b, x = Except.ok b := by
  intro l
  induction l with
  | nil => intro bs _ x hx; simp at hx
  | cons hd tl ih =>
    intro bs h x hx
    cases hd with
    | error e => simp [collectResults] at h
    | ok b =>
      cases hrec : collectResults tl with
      | error e => simp [collectResults, hrec] at h
      | ok tail =>
        rcases List.mem_cons.mp hx with rfl | hmem
        · exact ⟨b, rfl⟩
        · exact ih tail hrec x hmem

/-- C1 (amended): `send_messages` submits exactly one send per recipient,
and a send counts as failed exactly when its `errcode` differs from 0.
When no worker raises, the reported aggregate satisfies
`sent + failed = number of recipients`.  But when some recipient's send
suffers a transport failure (its worker raises), `send_messages`
re-raises at result collection and reports no aggregate — although the
other recipients' sends were all still submitted. -/
theorem c1_dispatch_accounting (users : List String)
    (outcome : String → SendOutcome) :
    (sendAttempts users outcome).length = users.length ∧
    (∀ r : SendResp, sendBool (.resp r) = true ↔ r.errcode = some 0) ∧
    ((∀ u ∈ users, ∀ e, outcome u ≠ .raise e) →
      ∃ s f, send_messages users outcome = .ok (s, f) ∧
        s + f = users.length) ∧
    (∀ u e, u ∈ users → outcome u = .raise e →
      ∃ e2, send_messages users outcome = .error e2) := by
  refine ⟨List.length_map _ _, ?_, ?_, ?_⟩
  · intro r
    unfold sendBool send_template_message
    by_cases h : r.errcode = some 0 <;> simp [h]
  · intro h
    have hc := collect_no_raise outcome users h
    have hcnt := List.count_le_length true (users.map fun u => sendBool (outcome u))
    have hlen := List.length_map users (fun u => sendBool (outcome u))
    refine ⟨(users.map fun u => sendBool (outcome u)).count true,
            users.length - (users.map fun u => sendBool (outcome u)).count true,
            ?_, by omega⟩
    simp [send_messages, hc]
  · intro u e hu ho
    cases hs : send_messages users outcome with
    | error e2 => exact ⟨e2, rfl⟩
    | ok p =>
      exfalso
      unfold send_messages at hs
      cases hcr : collectResults (sendAttempts users outcome) with
      | error e2 => rw [hcr] at hs; simp at hs
      | ok results =>
        obtain ⟨b, hb⟩ := collectResults_ok_elem _ results hcr
          (send_template_message (outcome u))
          (List.mem_map_of_mem _ hu)
        rw [ho] at hb
        simp [send_template_message] at hb

/-- C1 counterexample: seven recipients where recipient `u3`'s send
raises a transport exception.  All seven sends are submitted, but
`send_messages` re-raises the exception instead of reporting the
`{sent: 6, failed: 1}` aggregate the claim requires. -/
theorem c1_counterexample :
    send_messages ["u1", "u2", "u3", "u4", "u5", "u6", "u7"]
      (fun u => if u == "u3" then .raise (.requestException "boom")
        else .resp ⟨some 0⟩)
      = .error (.requestException "boom") ∧
    send_messages ["u1", "u2", "u3", "u4", "u5", "u6", "u7"]
      (fun u => if u == "u3" then .raise (.requestException "boom")
        else .resp ⟨some 0⟩)
      ≠ .ok (6, 1) ∧
    (sendAttempts ["u1", "u2", "u3", "u4", "u5", "u6", "u7"]
      (fun u => if u == "u3" then .raise (.requestException "boom")
        else .resp ⟨some 0⟩)).length = 7 :=
  ⟨by decide, by decide, by decide⟩

/-- C1 witness: two recipients whose sends both return `errcode = 0`
yield one attempt each and the aggregate `sent + failed = 2`. -/
theorem c1_witness :
    (sendAttempts ["u1", "u2"] (fun _ => .resp ⟨some 0⟩)).length = 2 ∧
    ∃ s f, send_messages ["u1", "u2"] (fun _ => .resp ⟨some 0⟩)
        = .ok (s, f) ∧ s + f = 2 :=
  ⟨(c1_dispatch_accounting ["u1", "u2"] (fun _ => .resp ⟨some 0⟩)).1,
   (c1_dispatch_accounting ["u1", "u2"] (fun _ => .resp ⟨some 0⟩)).2.2.1
     (fun _ _ _ h => SendOutcome.noConfusion h)⟩

/-- C3 (amended): on a cache miss, `get_weather` raises the region-lookup
`ValueError("地区查询失败")` (the spec's "region not found") exactly when
the geocoding response is missing or its `code` field is present but
differs from `"200"`; an absent `code` field instead raises
`KeyError('code')`, and `code = "200"` with an empty location list
instead raises `IndexError` — different kinds of exception. -/
theorem c3_region_lookup (env : WeatherEnv) (cache : Cache) (region : String)
    (hmiss : cache.lookup region = none) :
    (get_with_retry env.geoAttempts 0 3 = none →
      (get_weather env cache region).1
        = .error (.valueError "地区查询失败")) ∧
    (∀ g, get_with_retry env.geoAttempts 0 3 = some g →
      (g.code = none →
        (get_weather env cache region).1 = .error (.keyError "code")) ∧
      (∀ c, g.code = some c → c ≠ "200" →
        (get_weather env cache region).1
          = .error (.valueError "地区查询失败")) ∧
      (g.code = some "200" → g.location = [] →
        (get_weather env cache region).1 = .error .indexError)) := by
  refine ⟨?_, ?_⟩
  · intro hng
    simp [get_weather, hmiss, hng]
  · intro g hg
    refine ⟨?_, ?_, ?_⟩
    · intro hc
      simp [get_weather, hmiss, hg, hc]
    · intro c hc hne
      simp [get_weather, hmiss, hg, hc, hne]
    · intro hc hloc
      simp [get_weather, hmiss, hg, hc, hloc]

/-- C3 counterexample: a geocoding response that is present but has no
status-code field makes `get_weather` raise `KeyError('code')`, not the
region-lookup error the claim promises for that premise. -/
theorem c3_counterexample :
    (get_weather ⟨fun _ => some ⟨none, []⟩, fun _ _ => none⟩ [] "北京").1
      = .error (.keyError "code") ∧
    (Except.error (PyErr.keyError "code") : Except PyErr (Snapshot × Cache))
      ≠ .error (.valueError "地区查询失败") :=
  ⟨by decide, by decide⟩

/-- C3 witness: a present `code` field with the non-success value `"404"`
does raise the region-lookup error. -/
theorem c3_witness :
    (get_weather ⟨fun _ => some ⟨some "404", []⟩, fun _ _ => none⟩ [] "北京").1
      = .error (.valueError "地区查询失败") :=
  ((c3_region_lookup ⟨fun _ => some ⟨some "404", []⟩, fun _ _ => none⟩ []
      "北京" (by decide)).2 ⟨some "404", []⟩ (by decide)).2.1 "404"
    (by decide) (by decide)

theorem get_weather_ok_cases (env : WeatherEnv) (cache : Cache)
    (region : String) (res : Snapshot) (cache' : Cache)
    (h : (get_weather env cache region).1 = .ok (res, cache')) :
    (cache.lookup region = some res ∧ cache' = cache) ∨
    (cache.lookup region = none ∧ cache' = (region, res) :: cache) := by
  cases hc : cache.lookup region with
  | some snap =>
    left
    simp only [get_weather, hc] at h
    simp at h
    obtain ⟨h1, h2⟩ := h
    subst h1
    subst h2
    exact ⟨rfl, rfl⟩
  | none =>
    right
    simp only [get_weather, hc] at h
    split at h
    · simp at h
    · split at h
      · simp at h
      · split at h
        · simp at h
        · split at h
          · simp at h
          · split at h
            · simp at h
            · split at h
              · simp at h
              · split at h
                · simp at h
                · simp at h
                  obtain ⟨h1, h2⟩ := h
                  subst h1
                  subst h2
                  exact ⟨rfl, rfl⟩

/-- C4 (amended): a region already resolved this run is answered from the
cache with zero network lookups and the identical snapshot, and a cache
entry, once written, is never overwritten by later calls.  A first-time
query issues at most two network lookups (a lookup being one
`get_with_retry` call), and exactly two whenever the geocoding step
succeeds (response present, `code = "200"`, non-empty location list);
when the geocoding step fails only one lookup is issued. -/
theorem c4_weather_cache (env : WeatherEnv) (cache : Cache) (region : String) :
    (∀ snap, cache.lookup region = some snap →
      get_weather env cache region = (.ok (snap, cache), 0)) ∧
    (cache.lookup region = none → (get_weather env cache region).2 ≤ 2) ∧
    (∀ g loc rest, cache.lookup region = none →
      get_with_retry env.geoAttempts 0 3 = some g →
      g.code = some "200" → g.location = loc :: rest →
      (get_weather env cache region).2 = 2) ∧
    (∀ r s res cache', cache.lookup r = some s →
      (get_weather env cache region).1 = .ok (res, cache') →
      cache'.lookup r = some s) := by
  refine ⟨?_, ?_, ?_, ?_⟩
  · intro snap h
    simp [get_weather, h]
  · intro hm
    unfold get_weather
    rw [hm]
    repeat' split
    all_goals simp
  · intro g loc rest hm hg hcode hloc
    rcases hw : get_with_retry (env.wxAttempts loc.id) 0 3 with _ | w
    · simp [get_weather, hm, hg, hcode, hloc, hw]
    · rcases hwc : w.code with _ | c2
      · simp [get_weather, hm, hg, hcode, hloc, hw, hwc]
      · by_cases h2 : c2 = "200" <;>
          simp [get_weather, hm, hg, hcode, hloc, hw, hwc, h2]
  · intro r s res cache' hr hok
    rcases get_weather_ok_cases env cache region res cache' hok with
      ⟨hcs, rfl⟩ | ⟨hcn, rfl⟩
    · exact hr
    · have hne : (r == region) = false := by
        cases hbeq : r == region
        · rfl
        · exfalso
          rw [eq_of_beq hbeq] at hr
          simp [hr] at hcn
      simp [List.lookup, hne, hr]

/-- C4 counterexample: a region queried for the first time whose geocoding
lookup fails issues exactly one network lookup, not the two the claim
states. -/
theorem c4_counterexample :
    (get_weather ⟨fun _ => none, fun _ _ => none⟩ [] "北京").2 = 1 ∧
    (get_weather ⟨fun _ => none, fun _ _ => none⟩ [] "北京").2 ≠ 2 :=
  ⟨by decide, by decide⟩

/-- C4 witness: a cache hit returns the identical snapshot with zero
lookups, and a successful first-time resolution issues exactly two. -/
theorem c4_witness :
    get_weather
        ⟨fun _ => some ⟨some "200", [⟨"101"⟩]⟩,
         fun _ _ => some ⟨some "200", ⟨"晴", "3", "北风"⟩⟩⟩
        [("北京", ("晴", "3°C", "北风"))] "北京"
      = (.ok (("晴", "3°C", "北风"), [("北京", ("晴", "3°C", "北风"))]), 0) ∧
    (get_weather
        ⟨fun _ => some ⟨some "200", [⟨"101"⟩]⟩,
         fun _ _ => some ⟨some "200", ⟨"晴", "3", "北风"⟩⟩⟩
        [] "北京").2 = 2 :=
  ⟨(c4_weather_cache
      ⟨fun _ => some ⟨some "200", [⟨"101"⟩]⟩,
       fun _ _ => some ⟨some "200", ⟨"晴", "3", "北风"⟩⟩⟩
      [("北京", ("晴", "3°C", "北风"))] "北京").1
      ("晴", "3°C", "北风") (by decide),
   (c4_weather_cache
      ⟨fun _ => some ⟨some "200", [⟨"101"⟩]⟩,
       fun _ _ => some ⟨some "200", ⟨"晴", "3", "北风"⟩⟩⟩
      [] "北京").2.2.1 ⟨some "200", [⟨"101"⟩]⟩ ⟨"101"⟩ []
      (by decide) (by decide) (by decide) (by decide)⟩

theorem count_set_succ {α : Type} [DecidableEq α] :
    ∀ (l : List α) (i : Nat) (a v : α), l[i]? = some a → v ≠ a →
      l.count a = (l.set i v).count a + 1 := by
  intro l
  induction l with
  | nil => intro i a v h _; simp at h
  | cons hd tl ih =>
    intro i a v h hv
    cases i with
    | zero =>
      simp at h
      subst h
      simp [List.set, List.count_cons, hv]
    | succ j =>
      simp at h
      have hrec := ih j a v h hv
      simp only [List.set, List.count_cons]
      omega

theorem count_set_ne {α : Type} [DecidableEq α] :
    ∀ (l : List α) (i : Nat) (a v c : α), l[i]? = some a → a ≠ c → v ≠ c →
      (l.set i v).count c = l.count c := by
  intro l
  induction l with
  | nil => intro i a v c h _ _; simp at h
  | cons hd tl ih =>
    intro i a v c h ha hv
    cases i with
    | zero =>
      simp at h
      subst h
      simp [List.set, List.count_cons, ha, hv]
    | succ j =>
      simp at h
      have hrec := ih j a v c h ha hv
      simp only [List.set, List.count_cons]
      omega

/-- The invariant of the token-cache race: the worker list keeps its
length, the number of fetches issued stays bounded by the number of
workers that have passed the expiry check, and the shared cache is either
still the initial one or holds the complete written credential. -/
def raceInv (st0 : WeChatState) (now : Int) (t : String) (e : Int) (k : Nat)
    (s : SysState) : Prop :=
  s.workers.length = k ∧
  s.fetches + s.workers.count .start ≤ k ∧
  (s.shared = st0 ∨ s.shared = ⟨some t, now + e - 300⟩)

theorem stepWorker_inv (st0 : WeChatState) (now : Int) (t : String) (e : Int)
    (k : Nat) (s : SysState) (i : Nat) (h : raceInv st0 now t e k s) :
    raceInv st0 now t e k (stepWorker now t e s i) := by
  obtain ⟨hlen, hcnt, hsh⟩ := h
  cases hg : s.workers[i]? with
  | none => exact ⟨by simp [stepWorker, hg, hlen], by simpa [stepWorker, hg] using hcnt,
      by simpa [stepWorker, hg] using hsh⟩
  | some w =>
    cases w with
    | start =>
      by_cases hc : now < s.shared.token_expire
      · have hds := count_set_succ s.workers i WStatus.start WStatus.done hg
          (by intro hh; cases hh)
        refine ⟨?_, ?_, ?_⟩
        · simp [stepWorker, hg, hc, List.length_set, hlen]
        · simp only [stepWorker, hg, hc, if_pos]
          omega
        · simpa [stepWorker, hg, hc] using hsh
      · have hds := count_set_succ s.workers i WStatus.start WStatus.fetched hg
          (by intro hh; cases hh)
        refine ⟨?_, ?_, ?_⟩
        · simp [stepWorker, hg, hc, List.length_set, hlen]
        · simp [stepWorker, hg, hc]
          omega
        · simpa [stepWorker, hg, hc] using hsh
    | fetched =>
      have hds := count_set_ne s.workers i WStatus.fetched WStatus.done
        WStatus.start hg (by intro hh; cases hh) (by intro hh; cases hh)
      refine ⟨?_, ?_, ?_⟩
      · simp [stepWorker, hg, List.length_set, hlen]
      · simp only [stepWorker, hg]
        omega
      · simp [stepWorker, hg]
    | done =>
      exact ⟨by simp [stepWorker, hg, hlen], by simpa [stepWorker, hg] using hcnt,
        by simpa [stepWorker, hg] using hsh⟩

theorem runSched_inv (st0 : WeChatState) (now : Int) (t : String) (e : Int)
    (k : Nat) :
    ∀ (sched : List Nat) (s : SysState), raceInv st0 now t e k s →
      raceInv st0 now t e k (runSched now t e s sched) := by
  intro sched
  induction sched with
  | nil => intro s h; exact h
  | cons i rest ih =>
    intro s h
    exact ih (stepWorker now t e s i) (stepWorker_inv st0 now t e k s i h)

/-- C9 (amended): `get_access_token` takes no lock, so the check-fetch-
write sequence is not atomic: every worker that passes the expiry check
before any write issues its own token fetch — up to one fetch per worker
rather than at most one in total.  What does hold is that each cache
write installs a complete fetched credential in one step (the code writes
the token before the expiry, so no reader sees a fresh expiry with a
stale token), hence after any interleaving the cache is either untouched
or holds the complete fetched token with its recomputed expiry
(last-write-wins, no corruption). -/
theorem c9_token_race (now : Int) (t : String) (e : Int) (st0 : WeChatState)
    (k : Nat) (sched : List Nat) :
    (runSched now t e ⟨st0, List.replicate k .start, 0⟩ sched).fetches ≤ k ∧
    ((runSched now t e ⟨st0, List.replicate k .start, 0⟩ sched).shared = st0 ∨
     (runSched now t e ⟨st0, List.replicate k .start, 0⟩ sched).shared
        = ⟨some t, now + e - 300⟩) := by
  have h0 : raceInv st0 now t e k ⟨st0, List.replicate k .start, 0⟩ := by
    refine ⟨List.length_replicate k _, ?_, Or.inl rfl⟩
    simp [List.count_replicate_self]
  obtain ⟨hlen, hcnt, hsh⟩ :=
    runSched_inv st0 now t e k sched ⟨st0, List.replicate k .start, 0⟩ h0
  exact ⟨by omega, hsh⟩

/-- C9 counterexample: two workers, an empty cache and the schedule
check-check-write-write: both workers pass the expiry check before either
writes, so two external token fetches occur — the claimed "at most one
external token fetch" is false for the lock-free code. -/
theorem c9_counterexample :
    (runSched 1000 "TOK" 7200 ⟨⟨none, 0⟩, [.start, .start], 0⟩
        [0, 1, 0, 1]).fetches = 2 ∧
    ¬ (runSched 1000 "TOK" 7200 ⟨⟨none, 0⟩, [.start, .start], 0⟩
        [0, 1, 0, 1]).fetches ≤ 1 :=
  ⟨by decide, by decide⟩

end Vx
